import Mathlib

/-!
Verification of `notes/plot_from_csv.py` (Sapien staking-multiplier plotting
utility).  The Python program is shallowly embedded: the table is a list of
records, pandas/matplotlib calls that can raise are modelled as `Except`
computations, and string processing is modelled over `Char` lists with the
exact per-character semantics of the Python string methods used (`strip`,
`split`, `replace`, `isdigit`, `in`, `join`).
-/

/-- One row of the multiplier table: columns `tokens`, `lockup_days`,
`multiplier` of `multipliers.csv`. -/
structure Row where
  tokens : Nat
  lockup_days : Nat
  multiplier : Nat
deriving DecidableEq

/-- Conversion performed by `df['multiplier'] / 10000`: a fixed-point
multiplier scaled by 10000, as an exact rational. -/
def toDec (m : Nat) : ℚ := (m : ℚ) / 10000

/-- A pandas DataFrame as used by the script: the three loaded columns as
`rows`, plus the optional derived column `multiplier_decimal` (`none` before
`create_multiplier_charts` assigns it). -/
structure DF where
  rows : List Row
  multiplier_decimal : Option (List ℚ)
deriving DecidableEq

/-! ## Loader: `read_multiplier_data` (lines 7-18) -/

/-- Python truthiness of an optional string argument defaulting to `None`:
`None` and the empty string are falsy. -/
def pyTruthy : Option String → Bool
  | none => false
  | some s => !s.data.isEmpty

/-- Which input source a call to the loader consumed. -/
inductive LoadSource where
  | fromFile (path : String)
  | fromContent (text : String)
deriving DecidableEq

/-- Embedding of `read_multiplier_data(csv_content=None, csv_file=None)`:
`if csv_file: pd.read_csv(csv_file)` / `elif csv_content:
pd.read_csv(io.StringIO(csv_content))` / `else: raise ValueError(...)`.
The result records which source was consumed. -/
def read_multiplier_data (csv_content csv_file : Option String) :
    Except String LoadSource :=
  if pyTruthy csv_file then .ok (.fromFile (csv_file.getD ""))
  else if pyTruthy csv_content then .ok (.fromContent (csv_content.getD ""))
  else .error "Must provide either csv_content or csv_file"

/-! ## Deriver (line 25): `df['multiplier_decimal'] = df['multiplier'] / 10000` -/

/-- Embedding of the column assignment
`df['multiplier_decimal'] = df['multiplier'] / 10000`. -/
def deriveStep (df : DF) : DF :=
  { df with multiplier_decimal := some (df.rows.map fun r => toDec r.multiplier) }

/-- The table the caller of `create_multiplier_charts` observes after the
call: pandas column assignment mutates the DataFrame object in place, so the
caller's binding now holds the derived table. -/
def caller_table_after_charts (df : DF) : DF := deriveStep df

/-! ## Extractor: `parse_forge_output` (lines 134-148) -/

/-- Characters stripped by Python `str.strip()` with no argument. -/
def pyIsSpaceChar (c : Char) : Bool :=
  c = ' ' || c = '\t' || c = '\n' || c = '\r' || c = '\x0b' || c = '\x0c'

/-- Python `str.strip()`: drop leading and trailing whitespace. -/
def pyStrip (s : String) : String :=
  String.mk (((s.data.dropWhile pyIsSpaceChar).reverse.dropWhile pyIsSpaceChar).reverse)

/-- Helper for `str.split('\n')`: accumulate the current line (reversed). -/
def pySplitNLAux : List Char → List Char → List String
  | [], cur => [String.mk cur.reverse]
  | c :: cs, cur =>
    if c = '\n' then String.mk cur.reverse :: pySplitNLAux cs []
    else pySplitNLAux cs (c :: cur)

/-- Python `str.split('\n')`: split on every newline, keeping empty pieces. -/
def pySplitNL (s : String) : List String := pySplitNLAux s.data []

/-- Python `line.replace(',', '').replace(' ', '')`: removing all commas and
then all spaces equals filtering both characters out. -/
def removeCommasSpaces (s : String) : String :=
  String.mk (s.data.filter fun c => !(c = ',' || c = ' '))

/-- Python `str.isdigit()` restricted to ASCII input: true iff the string is
nonempty and every character is a decimal digit (so false on the empty
string, and false the moment a `.`, `-` or letter is present). -/
def pyIsDigitStr (s : String) : Bool :=
  !s.data.isEmpty && s.data.all Char.isDigit

/-- The literal CSV header recognised by the extractor. -/
def headerLine : String := "tokens,lockup_days,multiplier"

/-- Body of the `for line in lines` loop: the first branch keeps comma
containing all-digit lines, the `elif` keeps the literal header; both append
`line.strip()`. -/
def keepLine (line : String) : Option String :=
  if line.data.contains ',' && pyIsDigitStr (removeCommasSpaces line) then
    some (pyStrip line)
  else if pyStrip line = headerLine then some (pyStrip line)
  else none

/-- Python `'\n'.join(xs)`. -/
def joinNL : List String → String
  | [] => ""
  | [x] => x
  | x :: y :: xs => x ++ "\n" ++ joinNL (y :: xs)

/-- Embedding of `parse_forge_output`: strip the whole text, split on
newlines, keep lines per `keepLine`, join with newlines. -/
def parse_forge_output (forge_output_text : String) : String :=
  joinNL ((pySplitNL (pyStrip forge_output_text)).filterMap keepLine)

/-- Modelled from the amended spec wording: a line is kept iff it contains a
comma and its comma/space-stripped content is nonempty and all digits, or it
is (after stripping surrounding whitespace) the literal header. -/
def specLineKept (line : String) : Bool :=
  (line.data.contains ',' && pyIsDigitStr (removeCommasSpaces line)) ||
    pyStrip line == headerLine

/-! ## Renderer: `create_multiplier_charts` (lines 20-131) -/

/-- The color list `['gray', 'blue', 'green', 'orange', 'black']`. -/
def colorList : List String := ["gray", "blue", "green", "orange", "black"]

/-- The loop `for i, lockup in enumerate(lockup_periods)` with the access
`colors[i]`: Python list indexing raises IndexError past the end. -/
def assignColors (colors : List String) : Nat → List Nat → Except String (List (Nat × String))
  | _, [] => .ok []
  | i, lockup :: rest =>
    match colors[i]? with
    | none => .error "list index out of range"
    | some c =>
      match assignColors colors (i + 1) rest with
      | .error e => .error e
      | .ok tail => .ok ((lockup, c) :: tail)

/-- `sorted(df['lockup_days'].unique())` (and likewise for the pivot index):
the distinct values in ascending order. -/
def sortedUnique (xs : List Nat) : List Nat :=
  List.insertionSort (· ≤ ·) xs.dedup

/-- Embedding of the line-chart section: truncate the color list to the
number of distinct lockup periods (`[:len(lockup_periods)]`), assign a color
per period by position, then `plt.xlim(0, df['tokens'].max() * 1.05)` —
matplotlib raises ValueError on a NaN limit, and pandas `max()` of an empty
column is NaN (modelled as `none`). -/
def renderLineChart (df : List Row) : Except String (List (Nat × String)) :=
  let lockup_periods := sortedUnique (df.map Row.lockup_days)
  let colors := colorList.take lockup_periods.length
  match assignColors colors 0 lockup_periods with
  | .error e => .error e
  | .ok assigned =>
    match (df.map Row.tokens).max? with
    | none => .error "Axis limits cannot be NaN or Inf"
    | some _ => .ok assigned

/-- `df.sort_values('tokens')`: ascending sort on the `tokens` column. -/
def sortByTokens (l : List Row) : List Row :=
  List.insertionSort (fun a b => a.tokens ≤ b.tokens) l

/-- `df_365 = df[df['lockup_days'] == 365].sort_values('tokens')`. -/
def df365 (df : List Row) : List Row :=
  sortByTokens (df.filter fun r => r.lockup_days == 365)

/-- One row of the comparison table built in the `for _, row in
df_365.iterrows()` loop: tokens, `multiplier_decimal`, and the bonus percent
`(row['multiplier'] - base_multiplier) / 100` with `base_multiplier =
10000`. -/
def bonusEntry (r : Row) : Nat × ℚ × ℚ :=
  (r.tokens, toDec r.multiplier, ((r.multiplier : ℚ) - 10000) / 100)

/-- The comparison table of the bonus section: one entry per row of
`df_365`. -/
def comparisonTable (df : List Row) : List (Nat × ℚ × ℚ) :=
  (df365 df).map bonusEntry

/-- Embedding of the bonus-chart section: plot `total_bonus / 100` against
tokens, then `plt.xlim(0, df_365['tokens'].max() * 1.05)` — pandas `max()`
of the empty filtered column is NaN (`none`) and matplotlib raises
ValueError on a NaN axis limit; otherwise the section completes with the
bonus points and the comparison table. -/
def renderBonusChart (df : List Row) :
    Except String (List (Nat × ℚ) × List (Nat × ℚ × ℚ)) :=
  let d := df365 df
  match (d.map Row.tokens).max? with
  | none => .error "Axis limits cannot be NaN or Inf"
  | some _ =>
    .ok (d.map fun r => (r.tokens, ((r.multiplier : ℚ) - 10000) / 100),
      comparisonTable df)

/-- The 2-D grid produced by
`df.pivot(index='tokens', columns='lockup_days', values='multiplier_decimal')`:
sorted distinct row/column indices and a matrix of cells, `none` standing
for a NaN cell (missing combination). -/
structure PivotGrid where
  index : List Nat
  columns : List Nat
  cells : List (List (Option ℚ))
deriving DecidableEq

/-- Cell of the pivot: the `multiplier_decimal` of the unique row with the
given `tokens` and `lockup_days`, or `none` (NaN) when absent. -/
def lookupCell (rows : List Row) (t l : Nat) : Option ℚ :=
  (rows.find? fun r => r.tokens == t && r.lockup_days == l).map fun r =>
    toDec r.multiplier

/-- Embedding of `df.pivot(...)`: pandas raises
`ValueError: Index contains duplicate entries, cannot reshape` when some
`(tokens, lockup_days)` pair occurs twice; otherwise it produces the full
grid over the sorted distinct values, filling missing combinations with
NaN. -/
def pivotTable (rows : List Row) : Except String PivotGrid :=
  if (rows.map fun r => (r.tokens, r.lockup_days)).Nodup then
    let idx := sortedUnique (rows.map Row.tokens)
    let cols := sortedUnique (rows.map Row.lockup_days)
    .ok ⟨idx, cols, idx.map fun t => cols.map fun l => lookupCell rows t l⟩
  else .error "Index contains duplicate entries, cannot reshape"

/-! ## Top-level flow: `main` (lines 150-166) -/

/-- The guidance printed by the `except FileNotFoundError` handler. -/
def guidance_lines : List String :=
  ["CSV file not found. Please provide data using one of these methods:",
   "1. Save forge script output to 'multiplier_data.csv'",
   "2. Pipe forge output to this script",
   "3. Use the sample data below"]

/-- What happens at the `create_multiplier_charts(df)` call in `main`. -/
inductive MainOutcome where
  | renderedCharts (df : DF)
  | nameErrorAtRenderCall
deriving DecidableEq

/-- Observable trace of `main` up to the render call. -/
structure MainTrace where
  printed : List String
  outcome : MainOutcome
deriving DecidableEq

/-- Embedding of `main`: the `try` either binds `df` and prints the status
line, or catches FileNotFoundError, prints the guidance and leaves `df`
unbound; control then falls through to `create_multiplier_charts(df)` in
both cases, where an unbound `df` raises NameError. -/
def mainFlow (loadResult : Except Unit DF) : MainTrace :=
  let afterTry : List String × Option DF :=
    match loadResult with
    | .ok df => (["Reading from CSV file..."], some df)
    | .error _ => (guidance_lines, none)
  match afterTry.2 with
  | some df => ⟨afterTry.1, .renderedCharts df⟩
  | none => ⟨afterTry.1, .nameErrorAtRenderCall⟩

/-! ## Concrete tables used by the claims -/

/-- The four-row complete 2×2 grid from the spec's testable properties. -/
def grid4 : List Row :=
  [⟨100, 30, 10000⟩, ⟨100, 365, 15000⟩, ⟨200, 30, 10050⟩, ⟨200, 365, 15200⟩]

/-- Three rows with pairwise distinct `(tokens, lockup_days)` pairs but a
missing combination `(200, 365)`. -/
def rows3 : List Row := [⟨100, 30, 10000⟩, ⟨100, 365, 15000⟩, ⟨200, 30, 10050⟩]

/-- A table with a row but no 365-day row. -/
def dfNo365 : List Row := [⟨100, 30, 10000⟩]

/-- Another table with no 365-day row, for the witness. -/
def dfNo365W : List Row := [⟨50, 30, 10000⟩]

/-- A freshly loaded one-row DataFrame (no derived column yet). -/
def dfFresh : DF := ⟨[⟨100, 30, 10000⟩], none⟩

/-- Another freshly loaded DataFrame, for the witness. -/
def dfFreshW : DF := ⟨[⟨200, 365, 15200⟩], none⟩

/-- A table with six distinct lockup periods. -/
def dfSixLockups : List Row :=
  [⟨100, 10, 10000⟩, ⟨100, 20, 10100⟩, ⟨100, 30, 10200⟩,
   ⟨100, 40, 10300⟩, ⟨100, 50, 10400⟩, ⟨100, 60, 10500⟩]

/-! ## Helper lemmas (shared) -/

/-- The two branches of the extractor loop body keep exactly the lines the
spec-side predicate selects, and kept lines are stripped. -/
theorem keepLine_eq_spec (l : String) :
    keepLine l = if specLineKept l then some (pyStrip l) else none := by
  unfold keepLine specLineKept
  by_cases h1 : (l.data.contains ',' && pyIsDigitStr (removeCommasSpaces l)) = true
  · simp at h1
    simp [h1]
  · rw [Bool.not_eq_true] at h1
    by_cases h2 : pyStrip l = headerLine
    · simp [h1, h2]
    · simp [h1, h2]

/-- The extractor loop keeps exactly the lines selected by the spec-side
predicate, stripped, in their original order. -/
theorem filterMap_keepLine (lines : List String) :
    lines.filterMap keepLine = (lines.filter specLineKept).map pyStrip := by
  induction lines with
  | nil => rfl
  | cons l ls ih =>
    by_cases h : specLineKept l = true
    · simp [List.filterMap_cons, List.filter_cons, keepLine_eq_spec, h, ih]
    · rw [Bool.not_eq_true] at h
      simp [List.filterMap_cons, List.filter_cons, keepLine_eq_spec, h, ih]

/-- Color assignment fails with IndexError once the running index passes the
end of the color list. -/
theorem assignColors_oob (colors : List String) (l : List Nat) :
    ∀ i : Nat, l ≠ [] → colors.length < i + l.length →
      assignColors colors i l = .error "list index out of range" := by
  induction l with
  | nil => intro i h _; exact absurd rfl h
  | cons a rest ih =>
    intro i _ hlen
    by_cases hi : colors.length ≤ i
    · have hnone : colors[i]? = none := List.getElem?_eq_none hi
      simp [assignColors, hnone]
    · push_neg at hi
      have hne : rest ≠ [] := by
        intro he
        subst he
        simp at hlen
        omega
      have hsome : colors[i]? = some colors[i] := List.getElem?_eq_getElem hi
      have hrec := ih (i + 1) hne (by simp at hlen ⊢; omega)
      simp [assignColors, hsome, hrec]

/-! ## C1: Loader argument validation -/

/-- C1 counterexample: called with both a text blob and a file path, the
Loader does not fail — the `if csv_file:` branch wins and the file source is
consumed, refuting the claim that supplying both fails with
InvalidArgument. -/
theorem read_multiplier_data_both_cex :
    read_multiplier_data (some "100,30,10000") (some "multipliers.csv")
        = .ok (.fromFile "multipliers.csv") ∧
      (read_multiplier_data (some "100,30,10000") (some "multipliers.csv")).isOk = true :=
  ⟨rfl, rfl⟩

/-- C1 (amended): supplying neither source (or only falsy ones) fails with
the InvalidArgument error; whenever the file path is truthy — including when
both sources are supplied — only the file source is consumed; otherwise a
truthy text blob alone is consumed. -/
theorem read_multiplier_data_cases (csv_content csv_file : Option String) :
    (pyTruthy csv_file = false → pyTruthy csv_content = false →
        read_multiplier_data csv_content csv_file
          = .error "Must provide either csv_content or csv_file") ∧
      (∀ f, csv_file = some f → pyTruthy csv_file = true →
        read_multiplier_data csv_content csv_file = .ok (.fromFile f)) ∧
      (∀ c, csv_content = some c → pyTruthy csv_content = true →
        pyTruthy csv_file = false →
        read_multiplier_data csv_content csv_file = .ok (.fromContent c)) := by
  refine ⟨fun hf hc => ?_, fun f hf htf => ?_, fun c hc htc htf => ?_⟩
  · simp [read_multiplier_data, hf, hc]
  · subst hf
    simp [read_multiplier_data, htf]
  · subst hc
    simp [read_multiplier_data, htc, htf]

/-- C1 witness: the three cases of `read_multiplier_data_cases` evaluated at
concrete arguments. -/
theorem read_multiplier_data_cases_witness :
    read_multiplier_data none none = .error "Must provide either csv_content or csv_file" ∧
      read_multiplier_data (some "100,30,10000") (some "multipliers.csv")
        = .ok (.fromFile "multipliers.csv") ∧
      read_multiplier_data (some "100,30,10000") none
        = .ok (.fromContent "100,30,10000") :=
  ⟨(read_multiplier_data_cases none none).1 rfl rfl,
    (read_multiplier_data_cases (some "100,30,10000") (some "multipliers.csv")).2.1
      "multipliers.csv" rfl rfl,
    (read_multiplier_data_cases (some "100,30,10000") none).2.2
      "100,30,10000" rfl rfl rfl⟩

/-! ## C2: the Deriver's output column -/

/-- C2: for every table, the derived table has exactly as many rows as the
input, the `multiplier_decimal` column exists with one entry per row, and at
every position the entry equals that row's `multiplier / 10000`. -/
theorem deriver_adds_decimal (df : DF) (i : Nat) :
    (deriveStep df).rows.length = df.rows.length ∧
      ∃ dec, (deriveStep df).multiplier_decimal = some dec ∧
        dec.length = df.rows.length ∧
        dec[i]? = df.rows[i]?.map fun r => (r.multiplier : ℚ) / 10000 := by
  constructor
  · rfl
  refine ⟨df.rows.map fun (r : Row) => toDec r.multiplier, rfl, by simp, ?_⟩
  rw [List.getElem?_map]
  rfl

/-! ## C4: main control flow on a missing CSV file -/

/-- C4: when the load of `multipliers.csv` raises FileNotFoundError, `main`
catches it, prints exactly the instructional guidance, and still falls
through to the `create_multiplier_charts(df)` call where the unbound `df`
raises NameError — it does not short-circuit; on a successful load the
renderer is called with the loaded table. -/
theorem main_missing_file_flow :
    (mainFlow (.error ())).printed = guidance_lines ∧
      (mainFlow (.error ())).outcome = .nameErrorAtRenderCall ∧
      ∀ df, (mainFlow (.ok df)).outcome = .renderedCharts df :=
  ⟨rfl, rfl, fun _ => rfl⟩

/-! ## C6: extractor on the concrete example, and on inputs with no match -/

/-- C6: on the specific forge output the extractor returns exactly the
header plus the two numeric lines, and on every input in which no line
matches the loop condition it returns the empty string. -/
theorem extractor_examples :
    parse_forge_output "tokens,lockup_days,multiplier\n100,30,10000\nhello\n200,365,12000"
        = "tokens,lockup_days,multiplier\n100,30,10000\n200,365,12000" ∧
      ∀ t, ((pySplitNL (pyStrip t)).all fun l => (keepLine l).isNone) = true →
        parse_forge_output t = "" := by
  refine ⟨by decide, fun t h => ?_⟩
  have hnil : (pySplitNL (pyStrip t)).filterMap keepLine = [] := by
    rw [List.filterMap_eq_nil_iff]
    intro a ha
    have := List.all_eq_true.mp h a ha
    simpa [Option.isNone_iff_eq_none] using this
  rw [parse_forge_output, hnil]
  rfl

/-- C6 witness: an input none of whose lines match indeed yields the empty
string. -/
theorem extractor_examples_witness :
    (((pySplitNL (pyStrip "hello there\nworld")).all fun l => (keepLine l).isNone) = true) ∧
      parse_forge_output "hello there\nworld" = "" :=
  ⟨by decide, extractor_examples.2 "hello there\nworld" (by decide)⟩

/-! ## C5: which lines the extractor keeps -/

/-- C5 counterexample: the single-line input `"12345"` — all digits after
stripping commas and spaces, no decimal point, not the header — is dropped
(output empty), because the loop additionally requires a comma in the line;
this refutes the claim that every all-digit line is kept. -/
theorem extractor_no_comma_cex :
    pyIsDigitStr (removeCommasSpaces "12345") = true ∧
      parse_forge_output "12345" = "" :=
  ⟨rfl, rfl⟩

/-- C5 (amended): the extractor keeps exactly those lines that either
contain a comma and whose content, after stripping commas and spaces, is
nonempty and consists entirely of digits, or are (after stripping
surrounding whitespace) the literal header `tokens,lockup_days,multiplier`;
each kept line is whitespace-stripped and they are joined with newlines in
their original order.  A whitespace-padded header is kept, and a line with a
decimal point is rejected. -/
theorem parse_forge_output_characterization (t : String) :
    parse_forge_output t
        = joinNL (((pySplitNL (pyStrip t)).filter specLineKept).map pyStrip) ∧
      specLineKept "  tokens,lockup_days,multiplier " = true ∧
      specLineKept "1.5,30,10000" = false := by
  refine ⟨?_, by decide, by decide⟩
  rw [parse_forge_output, filterMap_keepLine]

/-! ## C7: the 365-day bonus computation -/

/-- C7: the bonus section filters the table to exactly the rows with
`lockup_days == 365`; every entry of the comparison table comes from such a
row as (tokens, multiplier / 10000, (multiplier - 10000) / 100); and on the
four-row 2×2 grid the table shows bonus 50 percent for tokens 100 and 52
percent for tokens 200. -/
theorem bonus_table_spec (df : List Row) :
    (∀ r : Row, r ∈ df365 df ↔ r ∈ df ∧ r.lockup_days = 365) ∧
      (∀ e ∈ comparisonTable df, ∃ r : Row, r ∈ df ∧ r.lockup_days = 365 ∧
        e = (r.tokens, toDec r.multiplier, ((r.multiplier : ℚ) - 10000) / 100)) ∧
      comparisonTable grid4 = [(100, 3 / 2, 50), (200, 38 / 25, 52)] := by
  have hmem : ∀ r : Row, r ∈ df365 df ↔ r ∈ df ∧ r.lockup_days = 365 := by
    intro r
    rw [df365, sortByTokens, List.mem_insertionSort, List.mem_filter]
    simp
  refine ⟨hmem, fun e he => ?_, ?_⟩
  · rw [comparisonTable] at he
    obtain ⟨r, hr, hre⟩ := List.mem_map.mp he
    obtain ⟨hrdf, hr365⟩ := (hmem r).mp hr
    exact ⟨r, hrdf, hr365, hre ▸ rfl⟩
  · have h365 : df365 grid4 = [⟨100, 365, 15000⟩, ⟨200, 365, 15200⟩] := by decide
    rw [comparisonTable, h365]
    norm_num [bonusEntry, toDec]

/-- C7 witness: the first entry of the concrete comparison table does come
from a 365-day row of the grid. -/
theorem bonus_table_spec_witness :
    ∃ r : Row, r ∈ grid4 ∧ r.lockup_days = 365 ∧
      ((100 : ℕ), (3 / 2 : ℚ), (50 : ℚ))
        = (r.tokens, toDec r.multiplier, ((r.multiplier : ℚ) - 10000) / 100) := by
  have h := bonus_table_spec grid4
  refine h.2.1 (100, 3 / 2, 50) ?_
  rw [h.2.2]
  exact List.mem_cons_self _ _

/-! ## C3: the heatmap pivot -/

/-- C3 counterexample: three rows with pairwise distinct pairs but with the
combination (200, 365) missing — the pivot succeeds (producing a NaN cell)
instead of failing, refuting the claim that a missing combination causes a
pivot error. -/
theorem pivot_missing_combination_cex :
    (pivotTable rows3).isOk = true ∧ lookupCell rows3 200 365 = none :=
  ⟨rfl, rfl⟩

/-- C3 (amended): the pivot succeeds exactly when no (tokens, lockup_days)
pair is duplicated; a combination present in the table always yields a
filled cell (so a complete rectangular grid pivots to a complete 2-D grid),
while a missing combination yields a NaN cell rather than an error; on the
four given rows it succeeds with the 2×2 grid indexed by [100, 200] and
[30, 365]. -/
theorem heatmap_pivot_spec (rows : List Row) :
    ((pivotTable rows).isOk = true ↔
        (rows.map fun r => (r.tokens, r.lockup_days)).Nodup) ∧
      (∀ t l : Nat, (∃ r : Row, r ∈ rows ∧ r.tokens = t ∧ r.lockup_days = l) →
        (lookupCell rows t l).isSome = true) ∧
      pivotTable grid4 = .ok ⟨[100, 200], [30, 365],
        [[some (toDec 10000), some (toDec 15000)],
         [some (toDec 10050), some (toDec 15200)]]⟩ := by
  refine ⟨?_, fun t l h => ?_, rfl⟩
  · by_cases hnd : (rows.map fun r => (r.tokens, r.lockup_days)).Nodup
    · simp [pivotTable, hnd, Except.isOk, Except.toBool]
    · simp [pivotTable, hnd, Except.isOk, Except.toBool]
  · obtain ⟨r, hr, ht, hl⟩ := h
    rw [lookupCell, Option.isSome_map']
    exact List.find?_isSome.mpr ⟨r, hr, by simp [ht, hl]⟩

/-- C3 witness: on the concrete grid, the present combination (100, 30)
yields a filled cell and the pivot succeeds. -/
theorem heatmap_pivot_spec_witness :
    (lookupCell grid4 100 30).isSome = true ∧ (pivotTable grid4).isOk = true := by
  refine ⟨(heatmap_pivot_spec grid4).2.1 100 30
    ⟨⟨100, 30, 10000⟩, by decide, rfl, rfl⟩, ?_⟩
  rw [(heatmap_pivot_spec grid4).2.2]
  rfl

/-! ## C8: bonus-chart rendering on tables with no 365-day row -/

/-- C8 counterexample: a one-row table with no 365-day row makes the bonus
section raise (ValueError on the NaN axis limit) rather than complete
silently. -/
theorem bonus_render_no365_cex :
    (dfNo365.all fun r => r.lockup_days != 365) = true ∧
      (renderBonusChart dfNo365).isOk = false :=
  ⟨rfl, rfl⟩

/-- C8 (amended): for every table containing no row with lockup_days == 365,
the bonus-chart rendering raises a ValueError at the x-axis-limit call —
`df_365['tokens'].max()` of the empty filter is NaN and matplotlib rejects a
NaN limit — instead of completing with an empty chart. -/
theorem bonus_render_no365_raises (df : List Row)
    (h : (df.all fun r => r.lockup_days != 365) = true) :
    renderBonusChart df = .error "Axis limits cannot be NaN or Inf" := by
  have hfil : (df.filter fun r => r.lockup_days == 365) = [] := by
    rw [List.filter_eq_nil_iff]
    intro r hr
    have := List.all_eq_true.mp h r hr
    simpa using this
  rw [renderBonusChart, df365, sortByTokens, hfil]
  rfl

/-- C8 witness: a concrete table with no 365-day row raises the axis-limit
error. -/
theorem bonus_render_no365_raises_witness :
    (dfNo365W.all fun r => r.lockup_days != 365) = true ∧
      renderBonusChart dfNo365W = .error "Axis limits cannot be NaN or Inf" :=
  ⟨rfl, bonus_render_no365_raises dfNo365W rfl⟩

/-! ## C9: the Deriver mutates the caller's table -/

/-- C9 counterexample: after `create_multiplier_charts`, the caller's
one-row table is no longer the table it passed in — the column assignment
added `multiplier_decimal` to it in place — refuting the claim that the
caller's input table is left unchanged. -/
theorem deriver_mutates_caller_cex :
    caller_table_after_charts dfFresh ≠ dfFresh := by
  decide

/-- C9 (amended): the Deriver computes the same table with
`multiplier_decimal` added (rows and row order untouched), but it is not
side-effect-free: the pandas column assignment mutates the caller's
DataFrame in place, so after the call the caller's table carries the new
column and differs from the passed-in table. -/
theorem deriver_in_place_mutation (df : DF) (h : df.multiplier_decimal = none) :
    (caller_table_after_charts df).rows = df.rows ∧
      (caller_table_after_charts df).multiplier_decimal
        = some (df.rows.map fun r => toDec r.multiplier) ∧
      caller_table_after_charts df ≠ df := by
  refine ⟨rfl, rfl, fun he => ?_⟩
  have := congrArg DF.multiplier_decimal he
  rw [h] at this
  simp [caller_table_after_charts, deriveStep] at this

/-- C9 witness: a concrete freshly loaded table is mutated by the derive
step. -/
theorem deriver_in_place_mutation_witness :
    (caller_table_after_charts dfFreshW).rows = dfFreshW.rows ∧
      (caller_table_after_charts dfFreshW).multiplier_decimal
        = some (dfFreshW.rows.map fun r => toDec r.multiplier) ∧
      caller_table_after_charts dfFreshW ≠ dfFreshW :=
  deriver_in_place_mutation dfFreshW rfl

/-! ## C10: color assignment with more than five lockup periods -/

/-- C10: whenever a table has more than five distinct lockup_days values,
the line-chart section raises IndexError at `colors[i]`: the color list is
truncated to five entries but indexed by the position of each distinct
lockup value. -/
theorem line_chart_color_overflow (df : List Row)
    (h : 5 < (sortedUnique (df.map Row.lockup_days)).length) :
    renderLineChart df = .error "list index out of range" := by
  have hne : sortedUnique (df.map Row.lockup_days) ≠ [] := by
    intro he
    rw [he] at h
    simp at h
  have hcolors : (colorList.take (sortedUnique (df.map Row.lockup_days)).length).length = 5 := by
    simp [colorList]
    omega
  have herr := assignColors_oob
    (colorList.take (sortedUnique (df.map Row.lockup_days)).length)
    (sortedUnique (df.map Row.lockup_days)) 0 hne (by rw [hcolors]; omega)
  rw [renderLineChart]
  rw [herr]

/-- C10 witness: a table with six distinct lockup periods triggers the
IndexError. -/
theorem line_chart_color_overflow_witness :
    5 < (sortedUnique (dfSixLockups.map Row.lockup_days)).length ∧
      renderLineChart dfSixLockups = .error "list index out of range" :=
  ⟨by decide, line_chart_color_overflow dfSixLockups (by decide)⟩
